import Mathlib

/-!
Verification development for the Roony governance engine
(spending checker, purchase-request handler, in-memory storage).

Monetary amounts (JavaScript numbers) are modelled as rationals (ℚ);
optional numeric fields as `Option ℚ` where JavaScript truthiness makes
`0` behave like an absent field; optional string arrays as
`Option (List String)`.  Asynchronous storage and payment collaborators
are modelled as pure function records, and the handler's persistence
calls are modelled as an explicit effect record returned next to the
protocol result.
-/

set_option maxRecDepth 16384

namespace Roony

/-! ## String helpers: JavaScript `String.prototype.includes` -/

/-- `matchAt sub s` : `sub` occurs at the very beginning of `s`. -/
def matchAt : List Char → List Char → Bool
  | [], _ => true
  | _ :: _, [] => false
  | a :: as, b :: bs => a == b && matchAt as bs

/-- `occursIn sub s` : `sub` occurs contiguously somewhere inside `s`. -/
def occursIn (sub : List Char) : List Char → Bool
  | [] => sub.isEmpty
  | c :: rest => matchAt sub (c :: rest) || occursIn sub rest

/-- JavaScript `s.includes(sub)`. -/
def strIncludes (s sub : String) : Bool :=
  occursIn sub.data s.data

/-- JavaScript `s.toLowerCase()`: lowercase every character (the
character mapping of the library `String.toLower`, stated directly on
the character list). -/
def toLowerStr (s : String) : String :=
  ⟨s.data.map Char.toLower⟩

/-- JavaScript `x.toFixed(2)` on a rational amount: the value rendered
with exactly two decimal places (rounding half away from zero; the
binary-float artefacts of the original are not modelled — no claim
depends on the rounding direction). -/
def toFixed2 (x : ℚ) : String :=
  let sign := if x < 0 then "-" else ""
  let cents : Int := ⌊|x| * 100 + 1 / 2⌋
  let w := cents / 100
  let f := cents % 100
  sign ++ toString w ++ "." ++ (if f < 10 then "0" else "") ++ toString f

/-! ## Data model (governance types) -/

/-- Wire-level rejection codes (string-literal union in the source). -/
inductive RejectionCode where
  | AGENT_NOT_FOUND
  | OVER_TRANSACTION_LIMIT
  | OVER_ORG_MAX_TRANSACTION
  | DAILY_LIMIT_EXCEEDED
  | MONTHLY_LIMIT_EXCEEDED
  | ORG_BUDGET_EXCEEDED
  | MERCHANT_BLOCKED
  | MERCHANT_NOT_ALLOWED
  | CATEGORY_BLOCKED
  | NO_PAYMENT_METHOD
  | POLICY_REJECTED
  deriving DecidableEq, Repr

/-- Reason categories for a pending approval. -/
inductive ApprovalReason where
  | OVER_THRESHOLD
  | NEW_VENDOR
  | ORG_GUARDRAIL
  | MANUAL_REVIEW
  deriving DecidableEq, Repr

/-- Purchase intent lifecycle status. -/
inductive PurchaseStatus where
  | pending
  | pending_approval
  | approved
  | rejected
  | expired
  deriving DecidableEq, Repr

structure Agent where
  id : String
  organizationId : String
  perTransactionLimit : Option ℚ := none
  dailyLimit : Option ℚ := none
  monthlyLimit : Option ℚ := none
  approvalThreshold : Option ℚ := none
  blockedMerchants : Option (List String) := none
  allowedMerchants : Option (List String) := none
  flagNewVendors : Bool := false
  deriving DecidableEq, Repr

structure OrgGuardrails where
  maxTransactionAmount : Option ℚ := none
  requireApprovalAbove : Option ℚ := none
  flagAllNewVendors : Bool := false
  blockCategories : Option (List String) := none
  deriving DecidableEq, Repr

structure Organization where
  id : String
  monthlyBudget : Option ℚ := none
  guardrails : Option OrgGuardrails := none
  deriving DecidableEq, Repr

structure SpendingCheckRequest where
  agentId : String
  amount : ℚ
  currency : String
  merchantName : String
  description : String
  deriving DecidableEq, Repr

structure SpendingCheckResult where
  allowed : Bool
  requiresApproval : Bool
  approvalReason : Option String := none
  rejectionCode : Option RejectionCode := none
  rejectionMessage : Option String := none
  deriving DecidableEq, Repr

inductive Period where
  | daily
  | monthly
  deriving DecidableEq, Repr

/-- The storage collaborator, restricted to the read operations the
spending checker consumes, modelled as a record of pure functions. -/
structure Storage where
  getAgent : String → Option Agent
  getOrganization : String → Option Organization
  getAgentSpend : String → Period → ℚ
  getOrgSpend : String → Period → ℚ
  isNewVendor : String → String → Bool

/-! ## Spending checker -/

/-- The guard shape `if (limit && x > limit)` shared by every numeric
check in `checkSpending`: the optional limit must be present and truthy
(nonzero) and the tested value strictly above it. -/
def limitTrips (lim : Option ℚ) (x : ℚ) : Bool :=
  match lim with
  | none => false
  | some l => l != 0 && decide (x > l)

/-- One merchant-list comparison:
`merchantName.toLowerCase().includes(entry.toLowerCase())`. -/
def merchantMatches (merchantName entry : String) : Bool :=
  strIncludes (toLowerStr merchantName) (toLowerStr entry)

/-- `SpendingChecker.checkSpending` (src/governance/spending-checker.ts). -/
def checkSpending (storage : Storage) (request : SpendingCheckRequest) :
    SpendingCheckResult :=
  -- 1. Load agent and org data
  match storage.getAgent request.agentId with
  | none =>
    { allowed := false, requiresApproval := false,
      rejectionCode := some .AGENT_NOT_FOUND,
      rejectionMessage := some "Agent not found" }
  | some agent =>
  match storage.getOrganization agent.organizationId with
  | none =>
    { allowed := false, requiresApproval := false,
      rejectionCode := some .AGENT_NOT_FOUND,
      rejectionMessage := some "Organization not found" }
  | some org =>
  let guardrails := org.guardrails.getD {}
  -- 2. Per-transaction limit (agent level)
  if limitTrips agent.perTransactionLimit request.amount then
    { allowed := false, requiresApproval := false,
      rejectionCode := some .OVER_TRANSACTION_LIMIT,
      rejectionMessage := some ("Amount $" ++ toFixed2 request.amount ++
        " exceeds per-transaction limit of $" ++
        toFixed2 (agent.perTransactionLimit.getD 0)) }
  -- 3. Org max transaction amount (guardrail)
  else if limitTrips guardrails.maxTransactionAmount request.amount then
    { allowed := false, requiresApproval := false,
      rejectionCode := some .OVER_ORG_MAX_TRANSACTION,
      rejectionMessage := some ("Amount $" ++ toFixed2 request.amount ++
        " exceeds organization maximum of $" ++
        toFixed2 (guardrails.maxTransactionAmount.getD 0)) }
  -- 4. Agent daily limit
  else if limitTrips agent.dailyLimit
      (storage.getAgentSpend agent.id .daily + request.amount) then
    { allowed := false, requiresApproval := false,
      rejectionCode := some .DAILY_LIMIT_EXCEEDED,
      rejectionMessage := some ("Daily spend would exceed limit of $" ++
        toFixed2 (agent.dailyLimit.getD 0) ++ " (current: $" ++
        toFixed2 (storage.getAgentSpend agent.id .daily) ++ ")") }
  -- 5. Agent monthly limit
  else if limitTrips agent.monthlyLimit
      (storage.getAgentSpend agent.id .monthly + request.amount) then
    { allowed := false, requiresApproval := false,
      rejectionCode := some .MONTHLY_LIMIT_EXCEEDED,
      rejectionMessage := some ("Monthly spend would exceed limit of $" ++
        toFixed2 (agent.monthlyLimit.getD 0) ++ " (current: $" ++
        toFixed2 (storage.getAgentSpend agent.id .monthly) ++ ")") }
  -- 6. Organization monthly budget
  else if limitTrips org.monthlyBudget
      (storage.getOrgSpend org.id .monthly + request.amount) then
    { allowed := false, requiresApproval := false,
      rejectionCode := some .ORG_BUDGET_EXCEEDED,
      rejectionMessage := some ("Organization monthly budget of $" ++
        toFixed2 (org.monthlyBudget.getD 0) ++
        " would be exceeded (current: $" ++
        toFixed2 (storage.getOrgSpend org.id .monthly) ++ ")") }
  -- 7. Blocked merchants (agent level)
  else if (agent.blockedMerchants.getD []).length > 0 &&
      (agent.blockedMerchants.getD []).any
        (fun blocked => merchantMatches request.merchantName blocked) then
    { allowed := false, requiresApproval := false,
      rejectionCode := some .MERCHANT_BLOCKED,
      rejectionMessage := some ("Merchant \"" ++ request.merchantName ++
        "\" is blocked for this agent") }
  -- 8. Allowed merchants (agent level — if set, only these are allowed)
  else if (agent.allowedMerchants.getD []).length > 0 &&
      !((agent.allowedMerchants.getD []).any
        (fun allowed => merchantMatches request.merchantName allowed)) then
    { allowed := false, requiresApproval := false,
      rejectionCode := some .MERCHANT_NOT_ALLOWED,
      rejectionMessage := some ("Merchant \"" ++ request.merchantName ++
        "\" is not in the allowed list") }
  -- 9. Blocked categories (org guardrail)
  else if (guardrails.blockCategories.getD []).length > 0 &&
      (guardrails.blockCategories.getD []).any
        (fun cat => merchantMatches request.merchantName cat) then
    { allowed := false, requiresApproval := false,
      rejectionCode := some .CATEGORY_BLOCKED,
      rejectionMessage := some ("Merchant \"" ++ request.merchantName ++
        "\" matches a blocked category") }
  -- 10. Approval threshold (agent level)
  else if limitTrips agent.approvalThreshold request.amount then
    { allowed := true, requiresApproval := true,
      approvalReason := some ("Amount $" ++ toFixed2 request.amount ++
        " exceeds approval threshold of $" ++
        toFixed2 (agent.approvalThreshold.getD 0)) }
  -- 11. Org-level approval threshold (guardrail)
  else if limitTrips guardrails.requireApprovalAbove request.amount then
    { allowed := true, requiresApproval := true,
      approvalReason := some ("Amount $" ++ toFixed2 request.amount ++
        " exceeds organization approval threshold of $" ++
        toFixed2 (guardrails.requireApprovalAbove.getD 0)) }
  -- 12. New vendor (agent level)
  else if agent.flagNewVendors &&
      storage.isNewVendor org.id request.merchantName then
    { allowed := true, requiresApproval := true,
      approvalReason := some ("First purchase from new vendor \"" ++
        request.merchantName ++ "\"") }
  -- 13. Org-level new vendor flagging (guardrail)
  else if guardrails.flagAllNewVendors &&
      storage.isNewVendor org.id request.merchantName then
    { allowed := true, requiresApproval := true,
      approvalReason := some ("First purchase from new vendor \"" ++
        request.merchantName ++ "\" (org policy)") }
  -- All checks passed — approved
  else
    { allowed := true, requiresApproval := false }

/-! ## Request handler (src/mcp/handlers.ts, `handleRequestPurchase`)

The loosely typed `Record<string, unknown>` argument bag is modelled by
`JSValue` fields; the JSON-stringified protocol responses are modelled
structurally by `HandlerResult`; the storage and payment writes are
modelled by an explicit `Effects` record (lists of the records each
call would persist, the id assignment of `createPurchaseIntent` being
supplied as the `intentId` parameter). -/

/-- A JavaScript value as seen by the argument validators: a number, a
string, `undefined`, or anything else. -/
inductive JSValue where
  | num (x : ℚ)
  | str (s : String)
  | undef
  | other
  deriving DecidableEq, Repr

/-- JavaScript truthiness of a `JSValue` (used for `project_id ? … : …`;
`other` stands for a truthy non-number non-string value). -/
def jsTruthy : JSValue → Bool
  | .num x => x != 0
  | .str s => !s.isEmpty
  | .undef => false
  | .other => true

/-- The argument bag of the `request_purchase` tool. -/
structure PurchaseArgs where
  amount : JSValue := .undef
  currency : JSValue := .undef
  description : JSValue := .undef
  merchant_name : JSValue := .undef
  merchant_url : JSValue := .undef
  project_id : JSValue := .undef
  deriving DecidableEq, Repr

structure HandlerContext where
  agentId : String
  organizationId : String
  deriving DecidableEq, Repr

/-- A purchase intent as passed to `storage.createPurchaseIntent`
(id and creation timestamp are assigned by storage). -/
structure PurchaseIntentRec where
  organizationId : String
  agentId : String
  amount : ℚ
  currency : String
  description : String
  merchantName : String
  merchantUrl : Option String := none
  status : PurchaseStatus
  rejectionCode : Option RejectionCode := none
  rejectionReason : Option String := none
  metadata : Option String := none
  deriving DecidableEq, Repr

/-- A pending approval as passed to `storage.createPendingApproval`. -/
structure PendingApprovalRec where
  purchaseIntentId : String
  organizationId : String
  agentId : String
  amount : ℚ
  merchantName : String
  reason : ApprovalReason
  reasonDetails : Option String := none
  status : String
  deriving DecidableEq, Repr

/-- The argument of `paymentProvider.createVirtualCard`. -/
structure CardRequest where
  purchaseIntentId : String
  organizationId : String
  agentId : String
  amount : ℚ
  currency : String
  deriving DecidableEq, Repr

/-- A virtual card as returned by the payment collaborator (the `Date`
expiry is modelled by its ISO string). -/
structure VirtualCard where
  id : String
  cardNumber : String
  expMonth : Nat
  expYear : Nat
  cvc : String
  billingZip : String
  expiresAtISO : String
  deriving DecidableEq, Repr

/-- The writes one `handleRequestPurchase` run performs, in order. -/
structure Effects where
  intents : List (String × PurchaseIntentRec) := []
  approvals : List PendingApprovalRec := []
  cardRequests : List CardRequest := []
  recordedMerchants : List (String × String) := []
  deriving DecidableEq, Repr

/-- The protocol result of `handleRequestPurchase`, with the
JSON-stringified payloads kept structural. -/
inductive HandlerResult where
  | errorText (msg : String)
  | rejectedResult (reasonCode : Option RejectionCode)
      (message : Option String) (suggestion : String)
  | pendingResult (message : String) (purchaseIntentId : String)
      (suggestion : String)
  | approvedResult (card : VirtualCard) (hardLimitAmount : ℚ)
      (currency : String) (purchaseIntentId : String) (message : String)
  deriving DecidableEq, Repr

/-- The static suggestion lookup (`getSuggestion` in handlers.ts). -/
def getSuggestion : Option RejectionCode → String
  | some .OVER_TRANSACTION_LIMIT =>
      "Try a smaller purchase amount or request a limit increase from your administrator."
  | some .DAILY_LIMIT_EXCEEDED =>
      "Your daily spending limit has been reached. Try again tomorrow or request a limit increase."
  | some .MONTHLY_LIMIT_EXCEEDED =>
      "Your monthly spending limit has been reached. Try again next month or request a limit increase."
  | some .ORG_BUDGET_EXCEEDED =>
      "The organization\x27s monthly budget has been reached. Contact your administrator."
  | some .OVER_ORG_MAX_TRANSACTION =>
      "This amount exceeds the organization\x27s maximum transaction limit."
  | some .MERCHANT_NOT_ALLOWED =>
      "This merchant is not on the approved list. Contact your administrator to add it."
  | some .MERCHANT_BLOCKED =>
      "This merchant has been blocked. Use an alternative merchant."
  | some .CATEGORY_BLOCKED =>
      "This merchant category is blocked by organization policy."
  | some .AGENT_NOT_FOUND =>
      "Unable to identify the agent. Check your API key configuration."
  | _ => "Contact your administrator for assistance."

/-- The approval-reason category the handler infers from the prose of
`checkResult.approvalReason`
(`includes("threshold") ? OVER_THRESHOLD : includes("vendor") ? NEW_VENDOR : ORG_GUARDRAIL`,
with optional chaining making an absent reason fall through). -/
def deriveApprovalReason (r : Option String) : ApprovalReason :=
  if (r.map fun s => strIncludes s "threshold").getD false then
    .OVER_THRESHOLD
  else if (r.map fun s => strIncludes s "vendor").getD false then
    .NEW_VENDOR
  else
    .ORG_GUARDRAIL

/-- `merchant_url as string | undefined` — the cast keeps a string and
anything else flows on as undefined for the model. -/
def asOptString : JSValue → Option String
  | .str s => some s
  | _ => none

/-- `handleRequestPurchase` (src/mcp/handlers.ts).  `intentId` is the id
`storage.createPurchaseIntent` would assign; `payment` is the payment
collaborator's `createVirtualCard`. -/
def handleRequestPurchase (args : PurchaseArgs) (context : HandlerContext)
    (storage : Storage) (intentId : String)
    (payment : CardRequest → VirtualCard) : HandlerResult × Effects :=
  -- Validate required args
  match args.amount with
  | .str _ | .undef | .other =>
    (.errorText "Error: \x27amount\x27 must be a positive number", {})
  | .num amount =>
  if amount ≤ 0 then
    (.errorText "Error: \x27amount\x27 must be a positive number", {})
  else
  match args.currency with
  | .num _ | .undef | .other =>
    (.errorText "Error: \x27currency\x27 is required", {})
  | .str currency =>
  match args.description with
  | .num _ | .undef | .other =>
    (.errorText "Error: \x27description\x27 is required", {})
  | .str description =>
  match args.merchant_name with
  | .num _ | .undef | .other =>
    (.errorText "Error: \x27merchant_name\x27 is required", {})
  | .str merchant_name =>
  -- Check spending
  let checkResult := checkSpending storage
    { agentId := context.agentId, amount := amount, currency := currency,
      merchantName := merchant_name, description := description }
  let metadata := if jsTruthy args.project_id then
      asOptString args.project_id else none
  -- Handle rejection
  if !checkResult.allowed && !checkResult.requiresApproval then
    let intent : PurchaseIntentRec :=
      { organizationId := context.organizationId,
        agentId := context.agentId,
        amount := amount, currency := currency,
        description := description, merchantName := merchant_name,
        merchantUrl := asOptString args.merchant_url,
        status := .rejected,
        rejectionCode := checkResult.rejectionCode,
        rejectionReason := checkResult.rejectionMessage,
        metadata := metadata }
    (.rejectedResult checkResult.rejectionCode checkResult.rejectionMessage
       (getSuggestion checkResult.rejectionCode),
     { intents := [(intentId, intent)] })
  -- Handle pending approval
  else if checkResult.requiresApproval then
    let intent : PurchaseIntentRec :=
      { organizationId := context.organizationId,
        agentId := context.agentId,
        amount := amount, currency := currency,
        description := description, merchantName := merchant_name,
        merchantUrl := asOptString args.merchant_url,
        status := .pending_approval,
        metadata := metadata }
    let approvalReason := deriveApprovalReason checkResult.approvalReason
    let approval : PendingApprovalRec :=
      { purchaseIntentId := intentId,
        organizationId := context.organizationId,
        agentId := context.agentId,
        amount := amount, merchantName := merchant_name,
        reason := approvalReason,
        reasonDetails := checkResult.approvalReason,
        status := "pending" }
    (.pendingResult
       (checkResult.approvalReason.getD "This purchase requires human approval")
       intentId
       "A human administrator will review this request. You\x27ll be notified of the decision.",
     { intents := [(intentId, intent)], approvals := [approval] })
  -- Create approved purchase intent
  else
    let intent : PurchaseIntentRec :=
      { organizationId := context.organizationId,
        agentId := context.agentId,
        amount := amount, currency := currency,
        description := description, merchantName := merchant_name,
        merchantUrl := asOptString args.merchant_url,
        status := .approved,
        metadata := metadata }
    let cardReq : CardRequest :=
      { purchaseIntentId := intentId,
        organizationId := context.organizationId,
        agentId := context.agentId,
        amount := amount, currency := currency }
    let card := payment cardReq
    (.approvedResult card amount currency intentId
       ("Purchase approved. Use this card to complete your purchase of " ++
        description ++ "."),
     { intents := [(intentId, intent)], cardRequests := [cardReq],
       recordedMerchants := [(context.organizationId, merchant_name)] })

/-! ## In-memory storage: merchant tracking
(src/providers/storage-provider.ts, `InMemoryStorageProvider`).

The field `merchants : Map<string, Set<string>>` (orgId → recorded
lowercased merchant names) is modelled as an association list of lists;
`Set.add` preserves insertion order and skips duplicates. -/

namespace InMemoryStorageProvider

/-- The merchant-tracking state: orgId → recorded (lowercased) names. -/
abbrev MerchantMap := List (String × List String)

/-- `this.merchants.get(orgId)`. -/
def mapGet (m : MerchantMap) (orgId : String) : Option (List String) :=
  (List.find? (fun p => p.1 == orgId) m).map Prod.snd

/-- JavaScript `Set.prototype.add`: append if not already present. -/
def setAdd (s : List String) (x : String) : List String :=
  if s.contains x then s else s ++ [x]

/-- `InMemoryStorageProvider.isNewVendor`:
`!merchants.get(orgId)?.has(merchantName.toLowerCase())`. -/
def isNewVendor (m : MerchantMap) (orgId merchantName : String) : Bool :=
  match mapGet m orgId with
  | none => true
  | some s => !(s.contains (toLowerStr merchantName))

/-- `InMemoryStorageProvider.recordMerchant`: ensure the org has a set,
then add the lowercased name to it. -/
def recordMerchant (m : MerchantMap) (orgId merchantName : String) :
    MerchantMap :=
  match mapGet m orgId with
  | none => m ++ [(orgId, setAdd [] (toLowerStr merchantName))]
  | some _ =>
    m.map fun p =>
      if p.1 == orgId then (p.1, setAdd p.2 (toLowerStr merchantName)) else p

end InMemoryStorageProvider

/-! ## Spec-side waterfall presentation (for the ordering claim)

`ruleResults` lists, in the spec's order, the optional verdict of each
of the eleven rules evaluated after the two lookups; `firstHit` returns
the first verdict that fires, or the approved verdict when none does.
This is the specification's "ordered, short-circuiting waterfall",
written from the spec's words, to be compared with `checkSpending`. -/

/-- First rule outcome that fires, else plain approval. -/
def firstHit : List (Option SpendingCheckResult) → SpendingCheckResult
  | [] => { allowed := true, requiresApproval := false }
  | some r :: _ => r
  | none :: rest => firstHit rest

/-- A hard-rejection verdict (spec: reject with a code and message). -/
def rejectWith (code : RejectionCode) (msg : String) : SpendingCheckResult :=
  { allowed := false, requiresApproval := false,
    rejectionCode := some code, rejectionMessage := some msg }

/-- A requires-approval verdict (spec: allowed pending human review). -/
def approveWith (reason : String) : SpendingCheckResult :=
  { allowed := true, requiresApproval := true,
    approvalReason := some reason }

/-- The ordered rule outcomes of the spec waterfall (rules 3-14 of
spec section 4.1, after agent and organization lookup succeed). -/
def ruleResults (storage : Storage) (request : SpendingCheckRequest)
    (agent : Agent) (org : Organization) :
    List (Option SpendingCheckResult) :=
  let guardrails := org.guardrails.getD {}
  -- per-transaction limit
  let r1 : Option SpendingCheckResult :=
    if limitTrips agent.perTransactionLimit request.amount then
      some (rejectWith .OVER_TRANSACTION_LIMIT
        ("Amount $" ++ toFixed2 request.amount ++
         " exceeds per-transaction limit of $" ++
         toFixed2 (agent.perTransactionLimit.getD 0)))
    else none
  -- org max transaction guardrail
  let r2 : Option SpendingCheckResult :=
    if limitTrips guardrails.maxTransactionAmount request.amount then
      some (rejectWith .OVER_ORG_MAX_TRANSACTION
        ("Amount $" ++ toFixed2 request.amount ++
         " exceeds organization maximum of $" ++
         toFixed2 (guardrails.maxTransactionAmount.getD 0)))
    else none
  -- daily limit
  let r3 : Option SpendingCheckResult :=
    if limitTrips agent.dailyLimit
        (storage.getAgentSpend agent.id .daily + request.amount) then
      some (rejectWith .DAILY_LIMIT_EXCEEDED
        ("Daily spend would exceed limit of $" ++
         toFixed2 (agent.dailyLimit.getD 0) ++ " (current: $" ++
         toFixed2 (storage.getAgentSpend agent.id .daily) ++ ")"))
    else none
  -- monthly limit
  let r4 : Option SpendingCheckResult :=
    if limitTrips agent.monthlyLimit
        (storage.getAgentSpend agent.id .monthly + request.amount) then
      some (rejectWith .MONTHLY_LIMIT_EXCEEDED
        ("Monthly spend would exceed limit of $" ++
         toFixed2 (agent.monthlyLimit.getD 0) ++ " (current: $" ++
         toFixed2 (storage.getAgentSpend agent.id .monthly) ++ ")"))
    else none
  -- org monthly budget
  let r5 : Option SpendingCheckResult :=
    if limitTrips org.monthlyBudget
        (storage.getOrgSpend org.id .monthly + request.amount) then
      some (rejectWith .ORG_BUDGET_EXCEEDED
        ("Organization monthly budget of $" ++
         toFixed2 (org.monthlyBudget.getD 0) ++
         " would be exceeded (current: $" ++
         toFixed2 (storage.getOrgSpend org.id .monthly) ++ ")"))
    else none
  -- blocked merchants
  let r6 : Option SpendingCheckResult :=
    if (agent.blockedMerchants.getD []).length > 0 &&
        (agent.blockedMerchants.getD []).any
          (fun blocked => merchantMatches request.merchantName blocked) then
      some (rejectWith .MERCHANT_BLOCKED
        ("Merchant \"" ++ request.merchantName ++
         "\" is blocked for this agent"))
    else none
  -- allowed merchants
  let r7 : Option SpendingCheckResult :=
    if (agent.allowedMerchants.getD []).length > 0 &&
        !((agent.allowedMerchants.getD []).any
          (fun allowed => merchantMatches request.merchantName allowed)) then
      some (rejectWith .MERCHANT_NOT_ALLOWED
        ("Merchant \"" ++ request.merchantName ++
         "\" is not in the allowed list"))
    else none
  -- blocked categories
  let r8 : Option SpendingCheckResult :=
    if (guardrails.blockCategories.getD []).length > 0 &&
        (guardrails.blockCategories.getD []).any
          (fun cat => merchantMatches request.merchantName cat) then
      some (rejectWith .CATEGORY_BLOCKED
        ("Merchant \"" ++ request.merchantName ++
         "\" matches a blocked category"))
    else none
  -- approval threshold (agent)
  let r9 : Option SpendingCheckResult :=
    if limitTrips agent.approvalThreshold request.amount then
      some (approveWith
        ("Amount $" ++ toFixed2 request.amount ++
         " exceeds approval threshold of $" ++
         toFixed2 (agent.approvalThreshold.getD 0)))
    else none
  -- approval threshold (org guardrail)
  let r10 : Option SpendingCheckResult :=
    if limitTrips guardrails.requireApprovalAbove request.amount then
      some (approveWith
        ("Amount $" ++ toFixed2 request.amount ++
         " exceeds organization approval threshold of $" ++
         toFixed2 (guardrails.requireApprovalAbove.getD 0)))
    else none
  -- new vendor (agent)
  let r11 : Option SpendingCheckResult :=
    if agent.flagNewVendors &&
        storage.isNewVendor org.id request.merchantName then
      some (approveWith
        ("First purchase from new vendor \"" ++
         request.merchantName ++ "\""))
    else none
  -- new vendor (org policy)
  let r12 : Option SpendingCheckResult :=
    if guardrails.flagAllNewVendors &&
        storage.isNewVendor org.id request.merchantName then
      some (approveWith
        ("First purchase from new vendor \"" ++
         request.merchantName ++ "\" (org policy)"))
    else none
  [r1, r2, r3, r4, r5, r6, r7, r8, r9, r10, r11, r12]

/-! ## Handler argument helpers -/

/-- An argument bag whose four required fields are well typed. -/
def purchaseArgsOf (amount : ℚ) (currency description merchant_name : String)
    (murl pid : JSValue) : PurchaseArgs :=
  { amount := .num amount, currency := .str currency,
    description := .str description, merchant_name := .str merchant_name,
    merchant_url := murl, project_id := pid }

/-- The spending-check request the handler builds from validated args. -/
def requestOf (context : HandlerContext) (amount : ℚ)
    (currency merchant_name description : String) : SpendingCheckRequest :=
  { agentId := context.agentId, amount := amount, currency := currency,
    merchantName := merchant_name, description := description }

/-- The handler's input validation, as a predicate: amount is a number
and strictly positive, and currency, description and merchant_name are
strings. -/
def validArgs (args : PurchaseArgs) : Bool :=
  (match args.amount with | .num a => decide (0 < a) | _ => false) &&
  (match args.currency with | .str _ => true | _ => false) &&
  (match args.description with | .str _ => true | _ => false) &&
  (match args.merchant_name with | .str _ => true | _ => false)

/-! ## Concrete fixtures used by the example runs -/

/-- Agent of the end-to-end scenario: monthly 1000, per-transaction 100,
approval threshold 50. -/
def agentM : Agent :=
  { id := "agent-1", organizationId := "org-1",
    monthlyLimit := some 1000, perTransactionLimit := some 100,
    approvalThreshold := some 50 }

/-- An organization with no budget and no guardrails. -/
def orgPlain : Organization := { id := "org-1" }

/-- Storage for the end-to-end scenario: current monthly spend 950. -/
def storageM : Storage :=
  { getAgent := fun aid => if aid = "agent-1" then some agentM else none,
    getOrganization := fun oid => if oid = "org-1" then some orgPlain else none,
    getAgentSpend := fun _ p => match p with | .daily => 0 | .monthly => 950,
    getOrgSpend := fun _ _ => 0,
    isNewVendor := fun _ _ => true }

/-- A request for the end-to-end agent, at a given amount. -/
def reqAmount (x : ℚ) : SpendingCheckRequest :=
  { agentId := "agent-1", amount := x, currency := "usd",
    merchantName := "Acme", description := "supplies" }

/-- Agent with only a per-transaction limit of 100 (boundary tests). -/
def agentPT : Agent :=
  { id := "agent-3", organizationId := "org-1",
    perTransactionLimit := some 100 }

/-- Storage for the boundary scenario: zero spend, no new vendors. -/
def storagePT : Storage :=
  { getAgent := fun aid => if aid = "agent-3" then some agentPT else none,
    getOrganization := fun oid => if oid = "org-1" then some orgPlain else none,
    getAgentSpend := fun _ _ => 0,
    getOrgSpend := fun _ _ => 0,
    isNewVendor := fun _ _ => false }

/-- A request for the boundary agent, at a given amount. -/
def reqPT (x : ℚ) : SpendingCheckRequest :=
  { agentId := "agent-3", amount := x, currency := "usd",
    merchantName := "Acme", description := "supplies" }

/-- Agent with blocklist entry "figma". -/
def agentBlockFigma : Agent :=
  { id := "a4", organizationId := "org-1",
    blockedMerchants := some ["figma"] }

/-- Agent with allowlist entry "aws". -/
def agentAllowAws : Agent :=
  { id := "a4b", organizationId := "org-1",
    allowedMerchants := some ["aws"] }

/-- Agent with blocklist entry "Figma Inc." (direction test). -/
def agentBlockFigmaInc : Agent :=
  { id := "a4c", organizationId := "org-1",
    blockedMerchants := some ["Figma Inc."] }

/-- Agent in the organization with a blocked category. -/
def agentInCatOrg : Agent :=
  { id := "a4d", organizationId := "org-4" }

/-- Organization with blocked category "gambling". -/
def orgCatGambling : Organization :=
  { id := "org-4",
    guardrails := some { blockCategories := some ["gambling"] } }

/-- Storage for the merchant-matching scenarios. -/
def storage4 : Storage :=
  { getAgent := fun aid =>
      if aid = "a4" then some agentBlockFigma
      else if aid = "a4b" then some agentAllowAws
      else if aid = "a4c" then some agentBlockFigmaInc
      else if aid = "a4d" then some agentInCatOrg
      else none,
    getOrganization := fun oid =>
      if oid = "org-1" then some orgPlain
      else if oid = "org-4" then some orgCatGambling
      else none,
    getAgentSpend := fun _ _ => 0,
    getOrgSpend := fun _ _ => 0,
    isNewVendor := fun _ _ => false }

/-- A request by a given agent for a given merchant, amount 10. -/
def reqMerchant (aid merchant : String) : SpendingCheckRequest :=
  { agentId := aid, amount := 10, currency := "usd",
    merchantName := merchant, description := "supplies" }

/-- A fixed payment collaborator for the handler runs. -/
def paymentW : CardRequest → VirtualCard := fun _ =>
  { id := "card_1", cardNumber := "4242424242424242", expMonth := 12,
    expYear := 2030, cvc := "123", billingZip := "00000",
    expiresAtISO := "2030-01-01T00:00:00.000Z" }

/-- Handler context for the end-to-end agent. -/
def contextW : HandlerContext :=
  { agentId := "agent-1", organizationId := "org-1" }

/-- Agent with only an approval threshold of 50 (approval-path runs). -/
def agentApprove : Agent :=
  { id := "agent-8", organizationId := "org-1",
    approvalThreshold := some 50 }

/-- Storage for the approval-path runs. -/
def storageApprove : Storage :=
  { getAgent := fun aid => if aid = "agent-8" then some agentApprove else none,
    getOrganization := fun oid => if oid = "org-1" then some orgPlain else none,
    getAgentSpend := fun _ _ => 0,
    getOrgSpend := fun _ _ => 0,
    isNewVendor := fun _ _ => false }

/-- Handler context for the approval-path agent. -/
def contextApprove : HandlerContext :=
  { agentId := "agent-8", organizationId := "org-1" }

/-- Storage whose organization lookup always fails. -/
def storageNoOrg : Storage :=
  { getAgent := fun _ => some agentM,
    getOrganization := fun _ => none,
    getAgentSpend := fun _ _ => 0,
    getOrgSpend := fun _ _ => 0,
    isNewVendor := fun _ _ => true }

/-- Agent whose every numeric limit is present but zero. -/
def agentZero : Agent :=
  { id := "agent-9", organizationId := "org-9",
    perTransactionLimit := some 0, dailyLimit := some 0,
    monthlyLimit := some 0, approvalThreshold := some 0 }

/-- Organization whose budget and numeric guardrails are zero. -/
def orgZero : Organization :=
  { id := "org-9", monthlyBudget := some 0,
    guardrails := some { maxTransactionAmount := some 0,
                         requireApprovalAbove := some 0 } }

/-- Storage with large accumulated spends and the zero-limit pair. -/
def storageZero : Storage :=
  { getAgent := fun aid => if aid = "agent-9" then some agentZero else none,
    getOrganization := fun oid => if oid = "org-9" then some orgZero else none,
    getAgentSpend := fun _ _ => 123456,
    getOrgSpend := fun _ _ => 987654,
    isNewVendor := fun _ _ => false }

/-! ## General lemmas about substring search -/

lemma occursIn_nil (l : List Char) : occursIn [] l = true := by
  cases l <;> simp [occursIn, matchAt, List.isEmpty]

lemma matchAt_append (sub s t : List Char) (h : matchAt sub s = true) :
    matchAt sub (s ++ t) = true := by
  induction sub generalizing s with
  | nil => rfl
  | cons a as ih =>
    cases s with
    | nil => simp [matchAt] at h
    | cons b bs =>
      simp only [matchAt, Bool.and_eq_true] at h
      simp only [List.cons_append, matchAt, Bool.and_eq_true]
      exact ⟨h.1, ih bs h.2⟩

lemma occursIn_append_of_left (sub l1 l2 : List Char)
    (h : occursIn sub l1 = true) : occursIn sub (l1 ++ l2) = true := by
  induction l1 with
  | nil =>
    simp only [occursIn, List.isEmpty_iff] at h
    subst h
    exact occursIn_nil _
  | cons c rest ih =>
    simp only [occursIn, Bool.or_eq_true] at h
    simp only [List.cons_append, occursIn, Bool.or_eq_true]
    rcases h with h | h
    · left
      have := matchAt_append sub (c :: rest) l2 h
      simpa using this
    · right; exact ih h

lemma occursIn_append_of_right (sub l1 l2 : List Char)
    (h : occursIn sub l2 = true) : occursIn sub (l1 ++ l2) = true := by
  induction l1 with
  | nil => simpa
  | cons c rest ih =>
    simp only [List.cons_append, occursIn, Bool.or_eq_true]
    right; exact ih

lemma strIncludes_append_left (s t sub : String)
    (h : strIncludes s sub = true) : strIncludes (s ++ t) sub = true := by
  unfold strIncludes at h ⊢
  rw [String.data_append]
  exact occursIn_append_of_left _ _ _ h

lemma strIncludes_append_right (s t sub : String)
    (h : strIncludes t sub = true) : strIncludes (s ++ t) sub = true := by
  unfold strIncludes at h ⊢
  rw [String.data_append]
  exact occursIn_append_of_right _ _ _ h

/-! ## General lemmas about the waterfall -/

lemma firstHit_nil :
    firstHit [] = { allowed := true, requiresApproval := false } := rfl

lemma firstHit_if (c : Bool) (r : SpendingCheckResult)
    (rest : List (Option SpendingCheckResult)) :
    firstHit ((if c = true then some r else none) :: rest) =
      if c = true then r else firstHit rest := by
  cases c <;> simp [firstHit]

set_option maxHeartbeats 1000000 in
/-- After both lookups succeed, `checkSpending` is exactly the first
verdict of the ordered rule list. -/
lemma checkSpending_eq_firstHit (storage : Storage)
    (request : SpendingCheckRequest) (agent : Agent) (org : Organization)
    (hA : storage.getAgent request.agentId = some agent)
    (hO : storage.getOrganization agent.organizationId = some org) :
    checkSpending storage request =
      firstHit (ruleResults storage request agent org) := by
  simp only [checkSpending, ruleResults, hA, hO]
  simp only [firstHit_if, firstHit_nil]
  rfl

lemma firstHit_mem_or_default (l : List (Option SpendingCheckResult)) :
    (∃ r, some r ∈ l ∧ firstHit l = r) ∨
    firstHit l = { allowed := true, requiresApproval := false } := by
  induction l with
  | nil => right; rfl
  | cons o rest ih =>
    cases o with
    | some r => left; exact ⟨r, List.mem_cons_self _ _, rfl⟩
    | none =>
      rcases ih with ⟨r, hr, he⟩ | he
      · left; exact ⟨r, List.mem_cons_of_mem _ hr, he⟩
      · right; exact he

set_option maxHeartbeats 1600000 in
/-- Every verdict a waterfall rule can fire is either a hard rejection
or a requires-approval verdict whose reason text mentions "threshold"
or "vendor". -/
lemma ruleResults_mem_shape (storage : Storage)
    (request : SpendingCheckRequest) (agent : Agent) (org : Organization)
    (r : SpendingCheckResult)
    (h : some r ∈ ruleResults storage request agent org) :
    (∃ c m, r = rejectWith c m) ∨
    (∃ m, r = approveWith m ∧
      (strIncludes m "threshold" = true ∨ strIncludes m "vendor" = true)) := by
  simp only [ruleResults, List.mem_cons, List.not_mem_nil, or_false] at h
  rcases h with h|h|h|h|h|h|h|h|h|h|h|h
  · split at h
    · exact Or.inl ⟨_, _, Option.some.inj h⟩
    · simp at h
  · split at h
    · exact Or.inl ⟨_, _, Option.some.inj h⟩
    · simp at h
  · split at h
    · exact Or.inl ⟨_, _, Option.some.inj h⟩
    · simp at h
  · split at h
    · exact Or.inl ⟨_, _, Option.some.inj h⟩
    · simp at h
  · split at h
    · exact Or.inl ⟨_, _, Option.some.inj h⟩
    · simp at h
  · split at h
    · exact Or.inl ⟨_, _, Option.some.inj h⟩
    · simp at h
  · split at h
    · exact Or.inl ⟨_, _, Option.some.inj h⟩
    · simp at h
  · split at h
    · exact Or.inl ⟨_, _, Option.some.inj h⟩
    · simp at h
  · split at h
    · refine Or.inr ⟨_, Option.some.inj h, Or.inl ?_⟩
      exact strIncludes_append_left _ _ _
        (strIncludes_append_right _ _ _ (by decide))
    · simp at h
  · split at h
    · refine Or.inr ⟨_, Option.some.inj h, Or.inl ?_⟩
      exact strIncludes_append_left _ _ _
        (strIncludes_append_right _ _ _ (by decide))
    · simp at h
  · split at h
    · refine Or.inr ⟨_, Option.some.inj h, Or.inr ?_⟩
      exact strIncludes_append_left _ _ _
        (strIncludes_append_left _ _ _ (by decide))
    · simp at h
  · split at h
    · refine Or.inr ⟨_, Option.some.inj h, Or.inr ?_⟩
      exact strIncludes_append_left _ _ _
        (strIncludes_append_left _ _ _ (by decide))
    · simp at h

/-! ## General lemmas about the in-memory merchant store -/

namespace InMemoryStorageProvider

lemma contains_setAdd (l : List String) (x y : String) :
    (setAdd l x).contains y = (l.contains y || y == x) := by
  unfold setAdd
  by_cases h : l.contains x = true
  · rw [if_pos h]
    by_cases hyx : y = x
    · subst hyx
      rw [h]
      simp
    · simp [beq_eq_false_iff_ne.mpr hyx]
  · rw [if_neg h]
    simp only [List.contains_eq_any_beq, List.any_append, List.any_cons,
      List.any_nil, Bool.or_false]

lemma mapGet_map_update (m : MerchantMap) (orgId x : String) :
    mapGet (m.map fun p =>
        if p.1 == orgId then (p.1, setAdd p.2 x) else p) orgId =
      (mapGet m orgId).map fun s => setAdd s x := by
  induction m with
  | nil => rfl
  | cons p rest ih =>
    cases hp : p.1 == orgId
    · unfold mapGet at *
      simp only [List.map_cons]
      rw [if_neg (by simp [hp])]
      rw [List.find?_cons_of_neg _ (by simp [hp]),
          List.find?_cons_of_neg _ (by simp [hp])]
      exact ih
    · unfold mapGet
      simp only [List.map_cons]
      rw [if_pos (by simp [hp])]
      rw [List.find?_cons_of_pos _ (by simp [hp]),
          List.find?_cons_of_pos _ (by simp [hp])]
      simp

lemma mapGet_recordMerchant_self (m : MerchantMap) (orgId name : String) :
    mapGet (recordMerchant m orgId name) orgId =
      some (setAdd ((mapGet m orgId).getD []) (toLowerStr name)) := by
  unfold recordMerchant
  cases h : mapGet m orgId with
  | none =>
    have hf : m.find? (fun p => p.1 == orgId) = none := by
      unfold mapGet at h
      exact Option.map_eq_none.mp h
    unfold mapGet
    rw [List.find?_append, hf]
    simp [List.find?]
  | some s =>
    rw [mapGet_map_update, h]
    unfold mapGet at h
    simp [h]

lemma isNewVendor_eq_contains (m : MerchantMap) (orgId q : String) :
    isNewVendor m orgId q =
      !(((mapGet m orgId).getD []).contains (toLowerStr q)) := by
  unfold isNewVendor
  cases h : mapGet m orgId <;> simp

end InMemoryStorageProvider

/-! ## Claim theorems -/

/-- Claim C1: `checkSpending` evaluates its rules in the fixed waterfall
order (after the two lookups) and returns at the first rule that fires —
it equals the first firing verdict of the ordered rule list.  In
particular, with monthlyLimit 1000, perTransactionLimit 100,
approvalThreshold 50 and current monthly spend 950, amount 60 is
rejected MONTHLY_LIMIT_EXCEEDED, and amount 150 is rejected
OVER_TRANSACTION_LIMIT without any approval condition being reached. -/
theorem checkSpending_waterfall_order :
    (∀ (storage : Storage) (request : SpendingCheckRequest)
       (agent : Agent) (org : Organization),
      storage.getAgent request.agentId = some agent →
      storage.getOrganization agent.organizationId = some org →
      checkSpending storage request =
        firstHit (ruleResults storage request agent org)) ∧
    (checkSpending storageM (reqAmount 60)).rejectionCode =
      some .MONTHLY_LIMIT_EXCEEDED ∧
    (checkSpending storageM (reqAmount 60)).allowed = false ∧
    (checkSpending storageM (reqAmount 150)).rejectionCode =
      some .OVER_TRANSACTION_LIMIT ∧
    (checkSpending storageM (reqAmount 150)).allowed = false ∧
    (checkSpending storageM (reqAmount 150)).requiresApproval = false := by
  refine ⟨checkSpending_eq_firstHit, ?_, ?_, ?_, ?_, ?_⟩ <;>
    with_unfolding_all decide

/-- Witness for C1: the waterfall equality applied to the end-to-end
scenario, its lookup hypotheses discharged by evaluation. -/
theorem checkSpending_waterfall_order_witness :
    storageM.getAgent (reqAmount 60).agentId = some agentM ∧
    storageM.getOrganization agentM.organizationId = some orgPlain ∧
    checkSpending storageM (reqAmount 60) =
      firstHit (ruleResults storageM (reqAmount 60) agentM orgPlain) :=
  ⟨by with_unfolding_all decide, by with_unfolding_all decide,
   checkSpending_waterfall_order.1 storageM (reqAmount 60) agentM orgPlain
     (by with_unfolding_all decide) (by with_unfolding_all decide)⟩

/-- Claim C2: for every storage state and request, the result of
`checkSpending` satisfies allowed = false → requiresApproval = false and
requiresApproval = true → allowed = true, so exactly one of rejected,
pending-approval, approved holds. -/
theorem checkSpending_verdict_invariant (storage : Storage)
    (request : SpendingCheckRequest) :
    ((checkSpending storage request).allowed = false →
      (checkSpending storage request).requiresApproval = false) ∧
    ((checkSpending storage request).requiresApproval = true →
      (checkSpending storage request).allowed = true) := by
  rcases hA : storage.getAgent request.agentId with _ | agent
  · simp only [checkSpending, hA]
    simp
  · rcases hO : storage.getOrganization agent.organizationId with _ | org
    · simp only [checkSpending, hA, hO]
      simp
    · rw [checkSpending_eq_firstHit storage request agent org hA hO]
      rcases firstHit_mem_or_default (ruleResults storage request agent org)
        with ⟨r, hr, he⟩ | he
      · rw [he]
        rcases ruleResults_mem_shape storage request agent org r hr with
          ⟨c, m, rfl⟩ | ⟨m, rfl, _⟩
        · simp [rejectWith]
        · simp [approveWith]
      · rw [he]
        simp

/-- Witness for C2: the invariant applied to a concrete rejected run. -/
theorem checkSpending_verdict_invariant_witness :
    (checkSpending storageM (reqAmount 60)).allowed = false ∧
    (checkSpending storageM (reqAmount 60)).requiresApproval = false :=
  ⟨by with_unfolding_all decide,
   (checkSpending_verdict_invariant storageM (reqAmount 60)).1
     (by with_unfolding_all decide)⟩

/-- Claim C3: every numeric check uses strict inequality: for a positive
limit the shared guard fires exactly when the tested value is strictly
greater, so amount = perTransactionLimit is allowed while
amount = perTransactionLimit + 0.01 is rejected OVER_TRANSACTION_LIMIT. -/
theorem limits_are_inclusive_boundaries :
    (∀ (l x : ℚ), 0 < l → (limitTrips (some l) x = true ↔ l < x)) ∧
    checkSpending storagePT (reqPT 100) =
      { allowed := true, requiresApproval := false } ∧
    (checkSpending storagePT (reqPT (100 + 0.01))).rejectionCode =
      some .OVER_TRANSACTION_LIMIT ∧
    (checkSpending storagePT (reqPT (100 + 0.01))).allowed = false := by
  refine ⟨?_, ?_, ?_, ?_⟩
  · intro l x hl
    unfold limitTrips
    simp only [Bool.and_eq_true, bne_iff_ne, ne_eq, decide_eq_true_eq,
      gt_iff_lt]
    exact ⟨fun h => h.2, fun h => ⟨hl.ne', h⟩⟩
  · with_unfolding_all decide
  · with_unfolding_all decide
  · with_unfolding_all decide

/-- Witness for C3: the strictness characterisation applied at limit 100
and amount 150, the positivity hypothesis discharged by evaluation. -/
theorem limits_are_inclusive_boundaries_witness :
    (0 : ℚ) < 100 ∧ (limitTrips (some 100) 150 = true ↔ (100 : ℚ) < 150) :=
  ⟨by with_unfolding_all decide,
   limits_are_inclusive_boundaries.1 100 150 (by with_unfolding_all decide)⟩

/-- Claim C4: merchant-list comparisons are case-insensitive substring
containment in the direction where the request merchant contains the
list entry: entry "figma" blocks "Figma Inc.", entry "aws" admits
"AWS Marketplace", the reverse direction does not match, and category
guardrails match the same way. -/
theorem merchant_matching_substring_case_insensitive :
    (checkSpending storage4 (reqMerchant "a4" "Figma Inc.")).rejectionCode =
      some .MERCHANT_BLOCKED ∧
    (checkSpending storage4 (reqMerchant "a4b" "AWS Marketplace")).allowed =
      true ∧
    (checkSpending storage4 (reqMerchant "a4b" "Zeta")).rejectionCode =
      some .MERCHANT_NOT_ALLOWED ∧
    (checkSpending storage4 (reqMerchant "a4c" "figma")).allowed = true ∧
    (checkSpending storage4
        (reqMerchant "a4d" "Best GAMBLING Site")).rejectionCode =
      some .CATEGORY_BLOCKED ∧
    merchantMatches "Figma Inc." "figma" = true ∧
    merchantMatches "figma" "Figma Inc." = false ∧
    merchantMatches "AWS Marketplace" "aws" = true ∧
    merchantMatches "aws" "AWS Marketplace" = false := by
  refine ⟨?_, ?_, ?_, ?_, ?_, ?_, ?_, ?_, ?_⟩ <;> with_unfolding_all decide

set_option maxHeartbeats 1600000 in
/-- Claim C5: for every valid purchase request reaching the evaluator,
`handleRequestPurchase` persists exactly one PurchaseIntent whatever
the verdict; the reject path persists it rejected with the evaluator's
code and message and requests no card, the approval path persists it
pending_approval with one PendingApproval referencing its id, and the
approved path persists it approved and requests exactly one virtual
card for that intent and amount. -/
theorem handleRequestPurchase_persists_one_intent (amount : ℚ)
    (hpos : 0 < amount) (currency description merchant_name : String)
    (murl pid : JSValue) (context : HandlerContext) (storage : Storage)
    (intentId : String) (payment : CardRequest → VirtualCard) :
    ((handleRequestPurchase
        (purchaseArgsOf amount currency description merchant_name murl pid)
        context storage intentId payment).2.intents.length = 1) ∧
    ((checkSpending storage
        (requestOf context amount currency merchant_name description)).allowed
          = false ∧
     (checkSpending storage
        (requestOf context amount currency merchant_name description)).requiresApproval
          = false →
      ∃ rec, (handleRequestPurchase
          (purchaseArgsOf amount currency description merchant_name murl pid)
          context storage intentId payment).2.intents = [(intentId, rec)] ∧
        rec.status = .rejected ∧
        rec.rejectionCode = (checkSpending storage
          (requestOf context amount currency merchant_name description)).rejectionCode ∧
        rec.rejectionReason = (checkSpending storage
          (requestOf context amount currency merchant_name description)).rejectionMessage ∧
        (handleRequestPurchase
          (purchaseArgsOf amount currency description merchant_name murl pid)
          context storage intentId payment).2.cardRequests = [] ∧
        (handleRequestPurchase
          (purchaseArgsOf amount currency description merchant_name murl pid)
          context storage intentId payment).2.approvals = []) ∧
    ((checkSpending storage
        (requestOf context amount currency merchant_name description)).requiresApproval
          = true →
      ∃ rec ap, (handleRequestPurchase
          (purchaseArgsOf amount currency description merchant_name murl pid)
          context storage intentId payment).2.intents = [(intentId, rec)] ∧
        rec.status = .pending_approval ∧
        (handleRequestPurchase
          (purchaseArgsOf amount currency description merchant_name murl pid)
          context storage intentId payment).2.approvals = [ap] ∧
        ap.purchaseIntentId = intentId ∧
        (handleRequestPurchase
          (purchaseArgsOf amount currency description merchant_name murl pid)
          context storage intentId payment).2.cardRequests = []) ∧
    ((checkSpending storage
        (requestOf context amount currency merchant_name description)).allowed
          = true ∧
     (checkSpending storage
        (requestOf context amount currency merchant_name description)).requiresApproval
          = false →
      ∃ rec, (handleRequestPurchase
          (purchaseArgsOf amount currency description merchant_name murl pid)
          context storage intentId payment).2.intents = [(intentId, rec)] ∧
        rec.status = .approved ∧
        (handleRequestPurchase
          (purchaseArgsOf amount currency description merchant_name murl pid)
          context storage intentId payment).2.approvals = [] ∧
        (handleRequestPurchase
          (purchaseArgsOf amount currency description merchant_name murl pid)
          context storage intentId payment).2.cardRequests =
          [{ purchaseIntentId := intentId,
             organizationId := context.organizationId,
             agentId := context.agentId, amount := amount,
             currency := currency }]) := by
  have hnle : ¬ amount ≤ 0 := not_le.mpr hpos
  simp only [handleRequestPurchase, purchaseArgsOf, requestOf]
  rw [if_neg hnle]
  cases hAl : (checkSpending storage
      { agentId := context.agentId, amount := amount, currency := currency,
        merchantName := merchant_name, description := description }).allowed <;>
  cases hRa : (checkSpending storage
      { agentId := context.agentId, amount := amount, currency := currency,
        merchantName := merchant_name,
        description := description }).requiresApproval <;>
  simp [hAl, hRa]

/-- Witness for C5: a concrete rejected run persists exactly one
intent, the positivity hypothesis discharged by evaluation. -/
theorem handleRequestPurchase_persists_one_intent_witness :
    (0 : ℚ) < 60 ∧
    (handleRequestPurchase (purchaseArgsOf 60 "usd" "supplies" "Acme"
        .undef .undef) contextW storageM "pi_1" paymentW).2.intents.length
      = 1 :=
  ⟨by with_unfolding_all decide,
   (handleRequestPurchase_persists_one_intent 60
      (by with_unfolding_all decide) "usd" "supplies" "Acme" .undef .undef
      contextW storageM "pi_1" paymentW).1⟩

set_option maxHeartbeats 1600000 in
/-- Claim C6: when the argument bag fails validation (amount not a
positive number, or currency, description or merchant_name not a
string), `handleRequestPurchase` returns an in-band error immediately,
persists nothing, and its behaviour does not depend on the storage or
payment collaborators at all. -/
theorem handleRequestPurchase_validation_short_circuits
    (args : PurchaseArgs) (context : HandlerContext) (storage : Storage)
    (intentId : String) (payment : CardRequest → VirtualCard)
    (hbad : validArgs args = false) :
    (∃ msg, (handleRequestPurchase args context storage intentId payment).1 =
      .errorText msg) ∧
    (handleRequestPurchase args context storage intentId payment).2.intents
      = [] ∧
    (handleRequestPurchase args context storage intentId payment).2.approvals
      = [] ∧
    (handleRequestPurchase args context storage intentId payment).2.cardRequests
      = [] ∧
    (handleRequestPurchase args context storage intentId payment).2.recordedMerchants
      = [] ∧
    (∀ (storage2 : Storage) (intentId2 : String)
       (payment2 : CardRequest → VirtualCard),
      handleRequestPurchase args context storage2 intentId2 payment2 =
      handleRequestPurchase args context storage intentId payment) := by
  rcases args with ⟨am, cu, de, mn, mu, pid⟩
  cases am <;> cases cu <;> cases de <;> cases mn <;>
    simp_all [handleRequestPurchase, validArgs, not_lt] <;>
    (split_ifs <;> simp)

/-- Witness for C6: a non-numeric amount yields an in-band error, the
invalidity hypothesis discharged by evaluation. -/
theorem handleRequestPurchase_validation_short_circuits_witness :
    validArgs { amount := .str "sixty" } = false ∧
    (∃ msg, (handleRequestPurchase { amount := .str "sixty" } contextW
        storageM "pi_1" paymentW).1 = .errorText msg) :=
  ⟨by decide,
   (handleRequestPurchase_validation_short_circuits
      { amount := .str "sixty" } contextW storageM "pi_1" paymentW
      (by decide)).1⟩

/-- Claim C7: when the agent lookup succeeds but the organization
lookup returns null, `checkSpending` rejects with the reused code
AGENT_NOT_FOUND, allowed = false and requiresApproval = false. -/
theorem org_not_found_reports_agent_not_found (storage : Storage)
    (request : SpendingCheckRequest) (agent : Agent)
    (hA : storage.getAgent request.agentId = some agent)
    (hO : storage.getOrganization agent.organizationId = none) :
    checkSpending storage request =
      { allowed := false, requiresApproval := false,
        rejectionCode := some .AGENT_NOT_FOUND,
        rejectionMessage := some "Organization not found" } := by
  simp only [checkSpending, hA, hO]

/-- Witness for C7: applied to a storage whose organization lookup
always fails, both lookup hypotheses discharged by evaluation. -/
theorem org_not_found_reports_agent_not_found_witness :
    storageNoOrg.getAgent (reqAmount 60).agentId = some agentM ∧
    storageNoOrg.getOrganization agentM.organizationId = none ∧
    checkSpending storageNoOrg (reqAmount 60) =
      { allowed := false, requiresApproval := false,
        rejectionCode := some .AGENT_NOT_FOUND,
        rejectionMessage := some "Organization not found" } :=
  ⟨by with_unfolding_all decide, by with_unfolding_all decide,
   org_not_found_reports_agent_not_found storageNoOrg (reqAmount 60) agentM
     (by with_unfolding_all decide) (by with_unfolding_all decide)⟩

set_option maxHeartbeats 1600000 in
/-- Claim C8: the PendingApproval reason category is derived from the
approvalReason text (contains "threshold" → OVER_THRESHOLD, else
contains "vendor" → NEW_VENDOR, else ORG_GUARDRAIL), and every
approvalReason the evaluator can actually produce derives to
OVER_THRESHOLD or NEW_VENDOR; a concrete approval-path run persists a
PendingApproval carrying the derived category. -/
theorem pending_approval_reason_derivation :
    (∀ (storage : Storage) (request : SpendingCheckRequest),
      (checkSpending storage request).requiresApproval = true →
      deriveApprovalReason (checkSpending storage request).approvalReason =
          .OVER_THRESHOLD ∨
      deriveApprovalReason (checkSpending storage request).approvalReason =
          .NEW_VENDOR) ∧
    deriveApprovalReason
      (some "Amount $60.00 exceeds approval threshold of $50.00") =
        .OVER_THRESHOLD ∧
    deriveApprovalReason (some "First purchase from new vendor \"Acme\"") =
      .NEW_VENDOR ∧
    deriveApprovalReason (some "manual check requested") = .ORG_GUARDRAIL ∧
    deriveApprovalReason none = .ORG_GUARDRAIL ∧
    (handleRequestPurchase (purchaseArgsOf 60 "usd" "supplies" "Acme"
        .undef .undef) contextApprove storageApprove "pi_1" paymentW).2.approvals
      = [{ purchaseIntentId := "pi_1", organizationId := "org-1",
           agentId := "agent-8", amount := 60, merchantName := "Acme",
           reason := .OVER_THRESHOLD,
           reasonDetails :=
             some "Amount $60.00 exceeds approval threshold of $50.00",
           status := "pending" }] := by
  refine ⟨?_, by decide, by decide, by decide, by decide,
    by with_unfolding_all decide⟩
  intro storage request h
  rcases hA : storage.getAgent request.agentId with _ | agent
  · simp only [checkSpending, hA] at h
    exact absurd h (by simp)
  · rcases hO : storage.getOrganization agent.organizationId with _ | org
    · simp only [checkSpending, hA, hO] at h
      exact absurd h (by simp)
    · rw [checkSpending_eq_firstHit storage request agent org hA hO] at h ⊢
      rcases firstHit_mem_or_default (ruleResults storage request agent org)
        with ⟨r, hr, he⟩ | he
      · rw [he] at h ⊢
        rcases ruleResults_mem_shape storage request agent org r hr with
          ⟨c, m, rfl⟩ | ⟨m, rfl, hm⟩
        · simp [rejectWith] at h
        · by_cases ht : strIncludes m "threshold" = true
          · left
            simp [approveWith, deriveApprovalReason, ht]
          · right
            rcases hm with hm | hm
            · exact absurd hm ht
            · simp [approveWith, deriveApprovalReason, ht, hm]
      · rw [he] at h
        simp at h

/-- Witness for C8: the derivation bound applied to a concrete
approval-path evaluation, its hypothesis discharged by evaluation. -/
theorem pending_approval_reason_derivation_witness :
    (checkSpending storageApprove
        (requestOf contextApprove 60 "usd" "Acme" "supplies")).requiresApproval
      = true ∧
    (deriveApprovalReason (checkSpending storageApprove
        (requestOf contextApprove 60 "usd" "Acme" "supplies")).approvalReason =
          ApprovalReason.OVER_THRESHOLD ∨
     deriveApprovalReason (checkSpending storageApprove
        (requestOf contextApprove 60 "usd" "Acme" "supplies")).approvalReason =
          ApprovalReason.NEW_VENDOR) :=
  ⟨by with_unfolding_all decide,
   pending_approval_reason_derivation.1 storageApprove
     (requestOf contextApprove 60 "usd" "Acme" "supplies")
     (by with_unfolding_all decide)⟩

/-- Claim C9: a numeric limit set to 0 behaves as unset, because every
numeric check first tests the field for truthiness: the shared guard
never fires on a zero (or absent) limit, and an agent and organization
whose seven numeric fields are all 0 approve an arbitrarily large
request outright. -/
theorem zero_limit_is_unset :
    (∀ x : ℚ, limitTrips (some 0) x = false) ∧
    (∀ x : ℚ, limitTrips none x = false) ∧
    checkSpending storageZero
      { agentId := "agent-9", amount := 1000000, currency := "usd",
        merchantName := "Acme", description := "supplies" } =
      { allowed := true, requiresApproval := false } := by
  refine ⟨?_, ?_, ?_⟩
  · intro x
    simp [limitTrips]
  · intro x
    rfl
  · with_unfolding_all decide

namespace InMemoryStorageProvider

/-- Claim C10: `recordMerchant` followed by `isNewVendor` is a
round-trip under case-insensitive exact name equality: after recording
`name`, `isNewVendor` reports `query` as known exactly when the
lowercased `query` equals the lowercased `name` or `query` was already
known; a merchant that merely contains a recorded name as a substring
is still reported new — unlike the substring matching of the
evaluator's merchant lists. -/
theorem recordMerchant_isNewVendor_roundtrip :
    (∀ (m : MerchantMap) (orgId name query : String),
      isNewVendor (recordMerchant m orgId name) orgId query = false ↔
        (toLowerStr query = toLowerStr name ∨
         isNewVendor m orgId query = false)) ∧
    isNewVendor (recordMerchant [] "org-1" "AWS") "org-1" "aws" = false ∧
    isNewVendor (recordMerchant [] "org-1" "AWS") "org-1" "AWS" = false ∧
    isNewVendor (recordMerchant [] "org-1" "AWS") "org-1" "aWs" = false ∧
    isNewVendor (recordMerchant [] "org-1" "AWS") "org-1" "AWS Marketplace"
      = true ∧
    merchantMatches "AWS Marketplace" "AWS" = true := by
  refine ⟨?_, by decide, by decide, by decide, by decide, by decide⟩
  intro m orgId name query
  rw [isNewVendor_eq_contains, isNewVendor_eq_contains,
    mapGet_recordMerchant_self]
  simp only [Option.getD_some]
  rw [contains_setAdd]
  by_cases hq : toLowerStr query = toLowerStr name
  · simp [hq]
  · simp [hq, beq_eq_false_iff_ne.mpr hq]

end InMemoryStorageProvider

end Roony
